import Mathlib

/-!
Shallow embedding of the session/authentication layer of the Modify app
(a Dify mobile client).  The embedded code is:

* src/utils/auth.js            — the Session Manager (class Auth);
* src/components/auth/LoginScreen.js — the Login Flow Controller;
* src/navigation/AppNavigator.js     — the auth-gated navigation poller.

Modelling conventions:

* AsyncStorage is a finite key space fixed by the source (STORAGE_KEYS plus
  the ad-hoc keys "apps" and "isAuthenticated"); it is embedded as the
  structure Store, one Option String field per key, none = key absent.
  Store reads/writes are modelled as always succeeding: the JS error
  branches on storage failure are outside the embedded state space.
* The in-memory static fields of class Auth are the structure Mem.
* JavaScript string truthiness (null/undefined/"" are falsy) is the
  function truthy, and the "x || y" idiom is jsOr / jsOrS.
* Network I/O (fetch) is an oracle parameter mapping the issued Request
  to an abstract response.
* JWT payload decoding (JSON.parse (atob (token.split "."[1]))).exp is an
  oracle dec : String -> Option Int; none models a decode exception, and
  some e models a payload whose exp claim is e (seconds).  A payload whose
  exp is absent compares as NaN, i.e. never expired, and is covered by a
  large e.

Field names ending in reserved-looking suffixes are shortened:
apiPre / publicApiPre stand for the apiPrefix / publicApiPrefix of the source,
and initSession stands for Auth.initialize of the source.
-/

namespace Modify

/-- JS truthiness for a nullable string: null/undefined and "" are falsy. -/
def truthy : Option String → Bool
  | none => false
  | some s => s != ""

/-- The JS idiom "x || d" where x is a nullable string and d a string. -/
def jsOr : Option String → String → String
  | none, d => d
  | some s, d => if s = "" then d else s

/-- The JS idiom "a || b" on two plain strings. -/
def jsOrS (a b : String) : String :=
  if a = "" then b else a

/-- Source constant CLOUD_INSTANCE_URL (src/utils/auth.js line 38). -/
def CLOUD_INSTANCE_URL : String := "https://cloud.dify.ai"

/-- The persisted key space of the Credential Store (AsyncStorage).
Fields correspond to the keys auth_token, refresh_token, instance_url,
instance_type, api_prefix, public_api_prefix, auth_cookies, base_url,
plus the ad-hoc keys "isAuthenticated" and "apps" used by
setIsAuthenticated/checkAuthState/logout and the login landing handler. -/
structure Store where
  authToken : Option String
  refreshToken : Option String
  instanceUrl : Option String
  instanceType : Option String
  apiPre : Option String
  publicApiPre : Option String
  cookies : Option String
  baseUrl : Option String
  isAuthKey : Option String
  apps : Option String
  deriving Repr, DecidableEq

/-- The store with every key absent (first run / fully cleared). -/
def Store.empty : Store :=
  { authToken := none, refreshToken := none, instanceUrl := none,
    instanceType := none, apiPre := none, publicApiPre := none,
    cookies := none, baseUrl := none, isAuthKey := none, apps := none }

/-- In-memory static fields of class Auth (src/utils/auth.js lines 41-47). -/
structure Mem where
  isAuthenticated : Bool
  instanceUrl : String
  instanceType : String
  apiPre : String
  publicApiPre : String
  cookies : String
  baseUrl : String
  deriving Repr, DecidableEq

/-- The initial values of the static fields (lines 41-47 of auth.js). -/
def Mem.initial : Mem :=
  { isAuthenticated := false, instanceUrl := CLOUD_INSTANCE_URL,
    instanceType := "", apiPre := "", publicApiPre := "",
    cookies := "", baseUrl := "" }

/-- Whole session state: in-memory fields plus the persisted store. -/
structure S where
  mem : Mem
  store : Store
  deriving Repr, DecidableEq

/-- Fresh process with an empty store. -/
def S.initial : S := { mem := Mem.initial, store := Store.empty }

/-- An outbound HTTP request as issued by fetch; body abstracts the JSON
payload (for the refresh POST it carries the refresh token). -/
structure Request where
  url : String
  method : String
  body : String
  deriving Repr, DecidableEq

/-- Outcome of the token-refresh fetch: a 2xx response whose JSON body
holds the new pair, a non-2xx response, or a thrown network error. -/
inductive FetchResult where
  | success (accessToken refreshToken : String)
  | httpError
  | networkError
  deriving Repr, DecidableEq

/-- Embeds Auth.setApiPrefix (auth.js lines 108-121); the second JS
argument may be omitted, hence Option.  Persists api_prefix and
public_api_prefix (the latter defaulting to the former) and mirrors both
into memory. -/
def setApiPre (p : String) (pub : Option String) (s : S) : S :=
  let stored := jsOr pub p
  { mem := { s.mem with apiPre := p, publicApiPre := stored },
    store := { s.store with apiPre := some p, publicApiPre := some stored } }

/-- Embeds Auth.getApiPrefix (lines 123-129): returns the cached value,
first setting the in-memory field (not the store) to the cloud default
when it is unset. -/
def getApiPre (s : S) : String × S :=
  if s.mem.apiPre = "" then
    let v := CLOUD_INSTANCE_URL ++ "/console/api"
    (v, { s with mem := { s.mem with apiPre := v } })
  else (s.mem.apiPre, s)

/-- Embeds Auth.getPublicApiPrefix (lines 131-133):
this.publicApiPrefix || this.apiPrefix || "". -/
def getPublicApiPre (s : S) : String :=
  jsOrS s.mem.publicApiPre (jsOrS s.mem.apiPre "")

/-- Embeds Auth.setAuthTokens (lines 135-147): persists both tokens and
sets isAuthenticated = true unconditionally. -/
def setAuthTokens (a r : String) (s : S) : S :=
  { mem := { s.mem with isAuthenticated := true },
    store := { s.store with authToken := some a, refreshToken := some r } }

/-- Embeds Auth.setCookies (lines 175-185): persists the cookie string
and sets isAuthenticated = true unconditionally. -/
def setCookies (c : String) (s : S) : S :=
  { mem := { s.mem with cookies := c, isAuthenticated := true },
    store := { s.store with cookies := some c } }

/-- Embeds Auth.setInstanceType (lines 202-210): declares a single
parameter; persists and mirrors only the instance type. -/
def setInstanceType (t : String) (s : S) : S :=
  { mem := { s.mem with instanceType := t },
    store := { s.store with instanceType := some t } }

/-- Embeds Auth.setBaseUrl (lines 223-231). -/
def setBaseUrl (u : String) (s : S) : S :=
  { mem := { s.mem with baseUrl := u },
    store := { s.store with baseUrl := some u } }

/-- Embeds Auth.logout (lines 233-258): multiRemove of all eight
STORAGE_KEYS plus "apps" and "isAuthenticated" (the whole key space),
then reset of the in-memory fields; the source does not reset
this.instanceUrl. -/
def logout (s : S) : S :=
  { mem := { s.mem with
               isAuthenticated := false, instanceType := "",
               apiPre := "", publicApiPre := "", cookies := "", baseUrl := "" },
    store := Store.empty }

/-- Embeds Auth.refreshAuthToken (lines 149-173): POST to
apiPrefix ++ "/oauth/token/refresh" with the refresh token in the body;
on a 2xx response stores the returned pair via setAuthTokens and returns
true; on a non-2xx response or a network error (both reach the catch
block) calls logout and returns false. -/
def refreshAuthToken (net : Request → FetchResult) (rt : String) (s : S) :
    Bool × S :=
  match net { url := s.mem.apiPre ++ "/oauth/token/refresh",
              method := "POST", body := rt } with
  | .success a r => (true, setAuthTokens a r s)
  | .httpError => (false, logout s)
  | .networkError => (false, logout s)

/-- Embeds Auth.checkAuthState (lines 260-266): reads the ad-hoc
"isAuthenticated" key; when present, overwrites the in-memory flag with
(stored === "true"); returns the in-memory flag. -/
def checkAuthState (s : S) : Bool × S :=
  match s.store.isAuthKey with
  | some v =>
      let b := v == "true"
      (b, { s with mem := { s.mem with isAuthenticated := b } })
  | none => (s.mem.isAuthenticated, s)

/-- Embeds Auth.setIsAuthenticated (lines 268-271). -/
def setIsAuthenticated (v : Bool) (s : S) : S :=
  { mem := { s.mem with isAuthenticated := v },
    store := { s.store with isAuthKey := some (if v then "true" else "false") } }

/-- Embeds Auth.getSignInUrl (lines 273-276): the source reads no state
and returns the fixed cloud sign-in URL. -/
def getSignInUrl (_ : S) : String :=
  CLOUD_INSTANCE_URL ++ "/signin"

/-- Embeds Auth.initialize (auth.js lines 49-106), renamed initSession.
dec is the JWT-payload decode oracle (none = decode throws), now is
Date.now() in milliseconds, net the fetch oracle used by the refresh.
Returns the value of this.isAuthenticated at the final return together
with the resulting state. -/
def initSession (dec : String → Option Int) (now : Int)
    (net : Request → FetchResult) (s : S) : Bool × S :=
  let token := s.store.authToken
  let refreshTok := s.store.refreshToken
  let mem1 : Mem :=
    { isAuthenticated := truthy token && truthy s.store.cookies,
      instanceUrl := jsOr s.store.instanceUrl CLOUD_INSTANCE_URL,
      instanceType := jsOr s.store.instanceType "cloud",
      apiPre := jsOr s.store.apiPre "",
      publicApiPre := jsOr s.store.publicApiPre "",
      cookies := jsOr s.store.cookies "",
      baseUrl := jsOr s.store.baseUrl "" }
  let s1 : S := { s with mem := mem1 }
  if truthy token then
    match dec (token.getD "") with
    | none =>
        let s2 := logout s1
        (s2.mem.isAuthenticated, s2)
    | some e =>
        if e * 1000 ≤ now then
          if truthy refreshTok then
            let s2 := (refreshAuthToken net (refreshTok.getD "") s1).2
            (s2.mem.isAuthenticated, s2)
          else
            let s2 := logout s1
            (s2.mem.isAuthenticated, s2)
        else (s1.mem.isAuthenticated, s1)
  else (s1.mem.isAuthenticated, s1)

/-!
Login Flow Controller: src/components/auth/LoginScreen.js.
-/

/-- JS String.prototype.startsWith, embedded as a character-list prefix
test so that it evaluates by kernel reduction. -/
def strStartsWith (s p : String) : Bool :=
  p.data.isPrefixOf s.data

/-- Domain normalization inside handleCustomLogin (LoginScreen.js lines
85-87): prepend "https://" unless the input already starts with "http". -/
def normalizeDomain (customDomain : String) : String :=
  if strStartsWith customDomain "http" then customDomain
  else "https://" ++ customDomain

/-- Embeds handleCustomLogin (LoginScreen.js lines 78-98).  Returns none
when the domain field is empty (alert, early return); otherwise returns
the normalized domain local variable, the sign-in URL loaded into the
web view, and the resulting session state.  The source passes the
normalized domain as a second argument to Auth.setInstanceType, which
declares a single parameter, so the domain reaches no store key. -/
def handleCustomLogin (customDomain : String) (s : S) :
    Option (String × String × S) :=
  if customDomain = "" then none
  else
    let domain := normalizeDomain customDomain
    let s1 := setInstanceType "custom" s
    some (domain, getSignInUrl s1, s1)

/-- Embeds handleCloudLogin (LoginScreen.js lines 65-76): persists the
cloud instance type and loads the sign-in URL. -/
def handleCloudLogin (s : S) : String × S :=
  let s1 := setInstanceType "cloud" s
  (getSignInUrl s1, s1)

/-- In-page messages posted by the embedded browser (LoginScreen.js
lines 100-122 and spec section 6): a COOKIES message, an API_PREFIX
message, or anything else (ignored). -/
inductive WVMessage where
  | cookiesMsg (cookies : String)
  | apiPreMsg (apiPre : String) (publicApiPre : Option String)
  | otherMsg
  deriving Repr, DecidableEq

/-- Embeds handleWebViewMessage (LoginScreen.js lines 100-122).  COOKIES
messages are stored via Auth.setCookies.  For API_PREFIX messages the
source invokes Auth.setApiPrefixes, a method that does not exist on the
Auth class (only setApiPrefix is defined), so the call raises a
TypeError that the surrounding catch block logs; the session state is
left unchanged. -/
def handleWebViewMessage (m : WVMessage) (s : S) : S :=
  match m with
  | .cookiesMsg c => setCookies c s
  | .apiPreMsg _ _ => s
  | .otherMsg => s

/-- Result of new URL(url) when it succeeds: the fields the landing
handler reads, with searchParams.get results as nullable strings. -/
structure ParsedUrl where
  pathname : String
  hostname : String
  origin : String
  accessTokenParam : Option String
  refreshTokenParam : Option String
  deriving Repr, DecidableEq

/-- Outcome of the apps-readiness GET: a 2xx response whose JSON body is
the app list (kept as its serialized form), or any failure (non-2xx
response or thrown error, both reaching the catch block). -/
inductive AppsResult where
  | ok (appsJson : String)
  | fail
  deriving Repr, DecidableEq

/-- Embeds the landing-extraction block of handleWebViewNavigation
(LoginScreen.js lines 136-188), entered after the one-shot guard is
taken: when an access_token query parameter is present, write it (and
the refresh token, when present) directly to the store keys, derive the
instance type from the hostname, persist base URL; then resolve the API
prefix and issue one GET to apiPrefix ++ "/apps".  On a 2xx response
mark the session authenticated and cache the app list under the "apps"
key; on failure only an alert is shown.  Returns the resulting state and
the list of HTTP requests issued. -/
def landingTokenState (u : ParsedUrl) (s : S) : S :=
  if truthy u.accessTokenParam then
    let sa : S := { s with store :=
      { s.store with authToken := some (u.accessTokenParam.getD "") } }
    let sb : S :=
      if truthy u.refreshTokenParam then
        { sa with store :=
          { sa.store with refreshToken := some (u.refreshTokenParam.getD "") } }
      else sa
    let instType := if u.hostname == "cloud.dify.ai" then "cloud" else "custom"
    setBaseUrl u.origin (setInstanceType instType sb)
  else s

/-- Continuation of the landing extraction: resolve the API prefix and
issue the single apps-readiness GET (LoginScreen.js lines 162-183). -/
def processLanding (net : Request → AppsResult) (u : ParsedUrl) (s : S) :
    S × List Request :=
  let pr := getApiPre (landingTokenState u s)
  let req : Request := { url := pr.1 ++ "/apps", method := "GET", body := "" }
  let sOut :=
    match net req with
    | .ok apps =>
        let sc := setIsAuthenticated true pr.2
        { sc with store := { sc.store with apps := some apps } }
    | .fail => pr.2
  (sOut, [req])

/-- Embeds handleWebViewNavigation (LoginScreen.js lines 124-253).
pu is the URL-constructor oracle (none = new URL(url) throws).  When the
URL parses and its pathname is "/apps", the one-shot loginProcessed flag
is consulted and set before the landing extraction runs.  When parsing
fails, the handler falls back to a substring-containment check; in that
branch the flag is set, but the extraction block begins by calling
new URL(url) again, which throws again and is caught by the inner catch,
so nothing else happens and no request is issued.  Returns the flag, the
state, and the requests issued. -/
def handleWebViewNavigation (pu : String → Option ParsedUrl)
    (net : Request → AppsResult) (url : String) (lp : Bool) (s : S) :
    Bool × S × List Request :=
  match pu url with
  | some p =>
      if p.pathname == "/apps" then
        if lp then (lp, s, [])
        else
          let r := processLanding net p s
          (true, r.1, r.2)
      else (lp, s, [])
  | none =>
      if (url.splitOn "/apps").length > 1 && !lp then (true, s, [])
      else (lp, s, [])

/-- Sequential processing of a list of navigation events by
handleWebViewNavigation, accumulating the issued requests. -/
def runNav (pu : String → Option ParsedUrl) (net : Request → AppsResult) :
    List String → Bool → S → Bool × S × List Request
  | [], lp, s => (lp, s, [])
  | u :: rest, lp, s =>
      let r1 := handleWebViewNavigation pu net u lp s
      let r2 := runNav pu net rest r1.1 r1.2.1
      (r2.1, r2.2.1, r1.2.2 ++ r2.2.2)

/-- Spec-side characterization of the value returned by initSession
(the amended form of the spec sentence for Auth.initialize): true iff a
non-empty access token is stored and decodes, and either it is unexpired
and cookies are also stored, or it is expired and a non-empty refresh
token is stored and the refresh POST succeeded (cookies not required in
the latter case). -/
def initReturnSpec (dec : String → Option Int) (now : Int)
    (net : Request → FetchResult) (s : S) : Bool :=
  match s.store.authToken with
  | none => false
  | some t =>
      if t = "" then false
      else
        match dec t with
        | none => false
        | some e =>
            if e * 1000 ≤ now then
              match s.store.refreshToken with
              | none => false
              | some rt =>
                  if rt = "" then false
                  else
                    match net { url := jsOr s.store.apiPre "" ++ "/oauth/token/refresh",
                                method := "POST", body := rt } with
                    | .success _ _ => true
                    | .httpError => false
                    | .networkError => false
            else truthy s.store.cookies

/-!
Helper lemmas for the one-shot landing guard.
-/

/-- Once the one-shot flag is set, a navigation event of any shape is a
no-op: no state change and no request issued. -/
theorem handleWebViewNavigation_done (pu : String → Option ParsedUrl)
    (net : Request → AppsResult) (url : String) (s : S) :
    handleWebViewNavigation pu net url true s = (true, s, []) := by
  unfold handleWebViewNavigation
  cases pu url with
  | some p => by_cases h : p.pathname == "/apps" <;> simp [h]
  | none => simp

/-- Once the one-shot flag is set, a whole sequence of navigation events
is a no-op. -/
theorem runNav_done (pu : String → Option ParsedUrl)
    (net : Request → AppsResult) (urls : List String) (s : S) :
    runNav pu net urls true s = (true, s, []) := by
  induction urls generalizing s with
  | nil => rfl
  | cons u rest ih => simp [runNav, handleWebViewNavigation_done, ih]

/-- Claim C1, counterexample: from the logged-out initial state, a single
setCookies call makes isAuthenticated true while no access token is
stored, so the claimed invariant fails and setCookies does not re-derive
isAuthenticated from the presence of both artifacts. -/
theorem isAuthenticated_invariant_cex :
    (setCookies "session=abc" S.initial).mem.isAuthenticated = true ∧
    (setCookies "session=abc" S.initial).store.authToken = none :=
  ⟨rfl, rfl⟩

/-- Claim C1, amended: setCookies and setAuthTokens each set
isAuthenticated to true unconditionally — setCookies without touching
the stored access token and setAuthTokens without touching the stored
cookies — so neither re-derives isAuthenticated from the joint presence
of both artifacts, and isAuthenticated can be true with no access token
stored. -/
theorem setters_force_isAuthenticated (cs a r : String) (s : S) :
    (setCookies cs s).mem.isAuthenticated = true ∧
    (setCookies cs s).store.authToken = s.store.authToken ∧
    (setAuthTokens a r s).mem.isAuthenticated = true ∧
    (setAuthTokens a r s).store.cookies = s.store.cookies :=
  ⟨rfl, rfl, rfl, rfl⟩

/-- Claim C3: refreshAuthToken issues its POST to
apiPrefix ++ "/oauth/token/refresh"; when that request yields a 2xx
response it stores the returned token pair and returns true, and when it
yields a non-2xx response (e.g. HTTP 401) or a network failure it calls
logout and returns false, after which isAuthenticated is false. -/
theorem refreshAuthToken_spec (net : Request → FetchResult)
    (rt a r : String) (s : S) :
    (net { url := s.mem.apiPre ++ "/oauth/token/refresh", method := "POST",
           body := rt } = .success a r →
      refreshAuthToken net rt s = (true, setAuthTokens a r s) ∧
      (refreshAuthToken net rt s).2.store.authToken = some a ∧
      (refreshAuthToken net rt s).2.store.refreshToken = some r) ∧
    (net { url := s.mem.apiPre ++ "/oauth/token/refresh", method := "POST",
           body := rt } = .httpError →
      refreshAuthToken net rt s = (false, logout s) ∧
      (refreshAuthToken net rt s).2.mem.isAuthenticated = false) ∧
    (net { url := s.mem.apiPre ++ "/oauth/token/refresh", method := "POST",
           body := rt } = .networkError →
      refreshAuthToken net rt s = (false, logout s) ∧
      (refreshAuthToken net rt s).2.mem.isAuthenticated = false) := by
  refine ⟨fun h => ?_, fun h => ?_, fun h => ?_⟩ <;>
    simp [refreshAuthToken, h, setAuthTokens, logout]

/-- Claim C3, witness: a refresh endpoint answering HTTP 401 makes
refreshAuthToken log out and return false, leaving isAuthenticated
false. -/
theorem refreshAuthToken_spec_witness :
    refreshAuthToken (fun _ => FetchResult.httpError) "r" S.initial
      = (false, logout S.initial) ∧
    (refreshAuthToken (fun _ => FetchResult.httpError) "r" S.initial).2.mem.isAuthenticated
      = false :=
  (refreshAuthToken_spec (fun _ => FetchResult.httpError) "r" "a" "b" S.initial).2.1 rfl

/-- Claim C4, failing input: handleCustomLogin on the scheme-less domain
"dify.example.com" does normalize it to "https://dify.example.com", but
the resulting state persists only instance_type = "custom"; the
instance_url and base_url keys stay absent (the normalized domain is an
ignored extra argument to setInstanceType) and the web view is pointed
at the fixed cloud sign-in URL. -/
theorem handleCustomLogin_drops_domain :
    (handleCustomLogin "dify.example.com" S.initial).map
        (fun x => (x.1, x.2.1, x.2.2.store.instanceUrl, x.2.2.store.baseUrl,
                   x.2.2.store.instanceType))
      = some ("https://dify.example.com", "https://cloud.dify.ai/signin",
              none, none, some "custom") := by
  decide

/-- Claim C5, counterexample: a session configured with a custom
instance URL and the cloud-configured initial session obtain the same
sign-in URL, although their configured instances differ. -/
theorem getSignInUrl_cex :
    getSignInUrl { mem := { Mem.initial with
                              instanceType := "custom",
                              instanceUrl := "https://dify.example.com" },
                   store := Store.empty }
      = getSignInUrl S.initial ∧
    ({ mem := { Mem.initial with
                  instanceType := "custom",
                  instanceUrl := "https://dify.example.com" },
       store := Store.empty } : S).mem.instanceUrl ≠ S.initial.mem.instanceUrl :=
  ⟨rfl, by decide⟩

/-- Claim C5, amended: getSignInUrl is pure but constant — it returns
the fixed cloud sign-in URL for every instance configuration, so any two
sessions obtain the same sign-in URL. -/
theorem getSignInUrl_constant (s1 s2 : S) :
    getSignInUrl s1 = getSignInUrl s2 ∧
    getSignInUrl s1 = CLOUD_INSTANCE_URL ++ "/signin" :=
  ⟨rfl, rfl⟩

/-- Claim C6, failing input: an in-page API_PREFIX message leaves the
session state entirely unchanged (the handler calls the nonexistent
Auth.setApiPrefixes, which throws and is caught), so the apiPrefix of
the Session Manager stays "" instead of the value carried by the
message. -/
theorem apiPreMessage_noop :
    handleWebViewMessage (WVMessage.apiPreMsg "https://x.example/api"
        (some "https://x.example/v1")) S.initial = S.initial ∧
    (handleWebViewMessage (WVMessage.apiPreMsg "https://x.example/api"
        (some "https://x.example/v1")) S.initial).mem.apiPre = "" :=
  ⟨rfl, rfl⟩

/-- Claim C8: setApiPrefix with the second argument omitted persists the
first argument under public_api_prefix as well, and a subsequent
getPublicApiPrefix returns that same value. -/
theorem setApiPre_public_fallback (p : String) (s : S) :
    (setApiPre p none s).store.publicApiPre = some p ∧
    getPublicApiPre (setApiPre p none s) = p := by
  refine ⟨rfl, ?_⟩
  unfold getPublicApiPre setApiPre jsOr jsOrS
  by_cases hp : p = "" <;> simp [hp]

/-- Claim C9: logout is idempotent — from any state, in-memory and
persisted state after two consecutive logout calls equals the state
after one (the model is total, so the second call raises no error; in
the source, multiRemove of already-absent keys succeeds). -/
theorem logout_idempotent (s : S) : logout (logout s) = logout s :=
  rfl

/-- Claim C10: checkAuthState is decided solely by the persisted
"isAuthenticated" key — it returns true iff that key holds "true", or,
when the key is absent, iff the in-memory flag is already true — and its
result is unchanged under arbitrary replacement of the stored access
token and cookies. -/
theorem checkAuthState_key_only (s : S) (t c : Option String) :
    ((checkAuthState s).1 = true ↔
      (s.store.isAuthKey = some "true" ∨
        (s.store.isAuthKey = none ∧ s.mem.isAuthenticated = true))) ∧
    (checkAuthState { s with store :=
        { s.store with authToken := t, cookies := c } }).1
      = (checkAuthState s).1 := by
  rcases s with ⟨m, st⟩
  rcases st with ⟨tok, rtok, iu, it, ap, pap, ck, bu, ik, apps⟩
  cases ik <;> simp [checkAuthState]

/-- Claim C2, counterexample: with an expired but decodable access token
and a refresh token stored, no cookies stored at all, and a refresh
endpoint that succeeds, initSession returns true — contradicting the
claim that it returns true only when cookies also exist in the store
before the call. -/
theorem initSession_cookieless_refresh_cex :
    (initSession (fun _ => some 0) 1 (fun _ => FetchResult.success "a2" "r2")
      { mem := Mem.initial,
        store := { Store.empty with
                     authToken := some "t", refreshToken := some "r" } }).1
      = true ∧
    ({ mem := Mem.initial,
       store := { Store.empty with
                    authToken := some "t", refreshToken := some "r" } } : S).store.cookies
      = none :=
  ⟨rfl, rfl⟩

/-- Claim C2, amended: initSession (the embedding of Auth.initialize) is
total — it never throws — and returns true iff a non-empty access token
is stored and decodes successfully, and either it is unexpired and
cookies are also stored, or it is expired and a non-empty refresh token
is stored and the refresh POST succeeded (true in that case even with no
cookies stored); with an undecodable token it returns false even when
cookies are present, and on an entirely empty store it returns false. -/
theorem initSession_returns_spec (dec : String → Option Int) (now : Int)
    (net : Request → FetchResult) (s : S) :
    (initSession dec now net s).1 = initReturnSpec dec now net s ∧
    (initSession dec now net { mem := s.mem, store := Store.empty }).1 = false := by
  constructor
  · rcases s with ⟨m, st⟩
    rcases st with ⟨tok, rtok, iu, it, ap, pap, ck, bu, ik, apps⟩
    cases tok with
    | none => simp [initSession, initReturnSpec, truthy]
    | some t =>
        by_cases ht : t = ""
        · simp [initSession, initReturnSpec, truthy, ht]
        · cases hd : dec t with
          | none => simp [initSession, initReturnSpec, truthy, ht, hd, logout]
          | some e =>
              by_cases he : e * 1000 ≤ now
              · cases rtok with
                | none =>
                    simp [initSession, initReturnSpec, truthy, ht, hd, he, logout]
                | some rt =>
                    by_cases hrt : rt = ""
                    · simp [initSession, initReturnSpec, truthy, ht, hd, he,
                            hrt, logout]
                    · cases hn : net { url := jsOr ap "" ++ "/oauth/token/refresh",
                                       method := "POST", body := rt } with
                      | success a r =>
                          simp [initSession, initReturnSpec, truthy, ht, hd, he,
                                hrt, refreshAuthToken, hn, setAuthTokens]
                      | httpError =>
                          simp [initSession, initReturnSpec, truthy, ht, hd, he,
                                hrt, refreshAuthToken, hn, logout]
                      | networkError =>
                          simp [initSession, initReturnSpec, truthy, ht, hd, he,
                                hrt, refreshAuthToken, hn, logout]
              · simp [initSession, initReturnSpec, truthy, ht, hd, he]
  · simp [initSession, Store.empty, truthy]

/-- Claim C7: when every navigation event of a (nonempty) sequence is a
well-formed URL whose path is the landing path "/apps", processing the
sequence from an unset one-shot flag issues the apps-readiness GET
against apiPrefix ++ "/apps" exactly once — the guard blocks every event
after the first. -/
theorem appsLanding_oneShot (pu : String → Option ParsedUrl)
    (net : Request → AppsResult) (u0 : String) (rest : List String) (s : S)
    (hall : ∀ u ∈ u0 :: rest, ∃ p, pu u = some p ∧ p.pathname = "/apps") :
    ∃ a, (runNav pu net (u0 :: rest) false s).2.2
      = [{ url := a ++ "/apps", method := "GET", body := "" }] := by
  obtain ⟨p, hp, hpath⟩ := hall u0 (List.mem_cons_self u0 rest)
  have h1 : handleWebViewNavigation pu net u0 false s
      = (true, (processLanding net p s).1, (processLanding net p s).2) := by
    unfold handleWebViewNavigation
    rw [hp]
    simp [hpath]
  have h2 : (processLanding net p s).2
      = [{ url := (getApiPre (landingTokenState p s)).1 ++ "/apps",
           method := "GET", body := "" }] := by
    rfl
  refine ⟨(getApiPre (landingTokenState p s)).1, ?_⟩
  simp [runNav, h1, runNav_done, h2]

/-- Claim C7, witness: the same well-formed landing redirect reported
twice by the web view, starting from an unset guard and a fresh session,
issues exactly one request. -/
theorem appsLanding_oneShot_witness :
    (runNav
      (fun _ => some { pathname := "/apps", hostname := "cloud.dify.ai",
                       origin := "https://cloud.dify.ai",
                       accessTokenParam := some "abc",
                       refreshTokenParam := some "def" })
      (fun _ => AppsResult.ok "[]")
      ["https://cloud.dify.ai/apps?access_token=abc&refresh_token=def",
       "https://cloud.dify.ai/apps?access_token=abc&refresh_token=def"]
      false S.initial).2.2.length = 1 := by
  obtain ⟨a, ha⟩ := appsLanding_oneShot
    (fun _ => some { pathname := "/apps", hostname := "cloud.dify.ai",
                     origin := "https://cloud.dify.ai",
                     accessTokenParam := some "abc",
                     refreshTokenParam := some "def" })
    (fun _ => AppsResult.ok "[]")
    "https://cloud.dify.ai/apps?access_token=abc&refresh_token=def"
    ["https://cloud.dify.ai/apps?access_token=abc&refresh_token=def"]
    S.initial
    (fun u _ => ⟨_, rfl, rfl⟩)
  rw [ha]
  rfl

end Modify
